import Mathlib

/-!
Shallow embedding of the request handlers of the members-only message board
(src/controllers/index.js) together with proofs about their behaviour.

Handlers are modelled as pure functions from a request (form body plus the
optional session identity) and the persisted state (user and message
collections) to the new state and the ordered list of response effects the
handler emits.  The express-validator chains are modelled by explicit
sanitization (trim, HTML escape) and validation functions that produce the
same field errors, in the same order, as the source chains.
-/

namespace MembersOnly

/-- A field-level validation error as produced by express-validator and by the
hand-built error in signup_post: a (param, msg) pair. -/
structure FieldError where
  param : String
  msg : String
deriving Repr, DecidableEq, Inhabited

/-- A persisted user record (models the User mongoose document).  `id` models
the document id. -/
structure UserRec where
  id : Nat
  first_name : String
  last_name : String
  username : String
  password : String
  membership_status : Bool
deriving Repr, DecidableEq, Inhabited

/-- A persisted message record (models the Message mongoose document).
`user` is the author's user id. -/
structure MessageRec where
  id : Nat
  user : Nat
  title : String
  text : String
deriving Repr, DecidableEq, Inhabited

/-- The persisted state: the two collections plus a fresh-id source that
models document-id generation on insert. -/
structure AppState where
  users : List UserRec
  messages : List MessageRec
  nextId : Nat
deriving Repr, DecidableEq, Inhabited

/-- The observable response actions a handler can emit, in order.  `render`
carries the view name, the form echo passed back to the view (the sanitized
request body, as a field-name/value list) and the error array; `redirect`
carries the target path; `nextError` models `next(error)` with the attached
status; `typeError` models a thrown JavaScript TypeError (reading a property
of `undefined`), which express forwards to the error path. -/
inductive Effect where
  | render (view : String) (formEcho : List (String × String)) (errors : List FieldError)
  | redirect (path : String)
  | nextError (status : Option Nat) (msg : String)
  | typeError (msg : String)
deriving Repr, DecidableEq

/-- The trim() sanitizer of validator.js (JavaScript String.prototype.trim
semantics): strip leading and trailing whitespace.  Written out over the
character list so that it evaluates by kernel reduction. -/
def jsTrim (s : String) : String :=
  String.mk (((s.data.dropWhile Char.isWhitespace).reverse.dropWhile
    Char.isWhitespace).reverse)

/-- validator.js isAlpha (default locale): nonempty and only A-Z / a-z. -/
def isAlphaStr (s : String) : Bool :=
  s.length > 0 && s.toList.all (fun c => c.isAlpha)

/-- validator.js isAlphanumeric (default locale): nonempty and only
A-Z / a-z / 0-9. -/
def isAlphanumericStr (s : String) : Bool :=
  s.length > 0 && s.toList.all (fun c => c.isAlphanum)

/-- The signup form body as submitted (req.body for POST /signup). -/
structure SignupBody where
  firstname : String
  lastname : String
  username : String
  password : String
  confirmpassword : String
deriving Repr, DecidableEq, Inhabited

/-- The trim() sanitizers of the five signup validation chains: each chain
trims its field in req.body before validating (chains run in order, so the
confirmpassword custom check later compares against the trimmed password). -/
def signupSanitize (b : SignupBody) : SignupBody :=
  { firstname := jsTrim b.firstname
    lastname := jsTrim b.lastname
    username := jsTrim b.username
    password := jsTrim b.password
    confirmpassword := jsTrim b.confirmpassword }

/-- The validators of the five signup chains on the sanitized body, producing
the errors array in chain order: isAlpha on the names, isAlphanumeric on the
username, isLength min 6 on the password, and the custom confirmpassword
check against req.body.password. -/
def signupErrors (b : SignupBody) : List FieldError :=
  (if isAlphaStr b.firstname then [] else [⟨"firstname", "Invalid first name"⟩])
  ++ (if isAlphaStr b.lastname then [] else [⟨"lastname", "Invalid last name"⟩])
  ++ (if isAlphanumericStr b.username then [] else [⟨"username", "Invalid username"⟩])
  ++ (if b.password.length ≥ 6 then [] else [⟨"password", "Invalid password"⟩])
  ++ (if b.confirmpassword = b.password then []
      else [⟨"confirmpassword", "Password confirmation does not match password"⟩])

/-- The signup body as the `user:` form echo handed to the re-rendered view. -/
def signupBodyEcho (b : SignupBody) : List (String × String) :=
  [("firstname", b.firstname), ("lastname", b.lastname), ("username", b.username),
   ("password", b.password), ("confirmpassword", b.confirmpassword)]

/-- The signup_post handler.  `hashFn` models bcrypt.hash (an external
library; the handler only ever stores its output).  Mirrors the source: on
validation errors re-render the form with the sanitized body and the error
array; otherwise hash the password, build the user, look the username up with
findOne; if found re-render with the single "Username already in use." error
tagged to the username field; otherwise save and redirect to /login. -/
def signup_post (hashFn : String → String) (b0 : SignupBody) (st : AppState) :
    AppState × List Effect :=
  let b := signupSanitize b0
  let errors := signupErrors b
  if errors.isEmpty then
    let hash := hashFn b.password
    let user : UserRec :=
      { id := st.nextId, first_name := b.firstname, last_name := b.lastname,
        username := b.username, password := hash, membership_status := false }
    match st.users.find? (fun u => u.username = b.username) with
    | some _ =>
        (st, [.render "signup_form" (signupBodyEcho b)
                [⟨"username", "Username already in use."⟩]])
    | none =>
        ({ users := st.users ++ [user], messages := st.messages,
           nextId := st.nextId + 1 },
         [.redirect "/login"])
  else
    (st, [.render "signup_form" (signupBodyEcho b) errors])

/-- validator.js escape() on one character: HTML-escapes the ampersand, the
double and single quote, the angle brackets, the slash, the backslash and the
backtick (code points 39, 92 and 96 written numerically). -/
def escapeChar (c : Char) : String :=
  if c = '&' then "&amp;"
  else if c = '"' then "&quot;"
  else if c.toNat = 39 then "&#x27;"
  else if c = '<' then "&lt;"
  else if c = '>' then "&gt;"
  else if c = '/' then "&#x2F;"
  else if c.toNat = 92 then "&#x5C;"
  else if c.toNat = 96 then "&#96;"
  else String.singleton c

/-- validator.js escape() on a string, as applied by the sanitizer
chain body(the-wildcard).escape() to every submitted field. -/
def htmlEscape (s : String) : String :=
  String.join (s.toList.map escapeChar)

/-- The message-creation form body (req.body for POST /message/create):
the title and the message text. -/
structure MessageBody where
  title : String
  message : String
deriving Repr, DecidableEq, Inhabited

/-- The trim() sanitizers of the two message validation chains. -/
def messageSanitize (b : MessageBody) : MessageBody :=
  { title := jsTrim b.title, message := jsTrim b.message }

/-- The validators of the two message chains on the trimmed body, in chain
order: isLength min 1 on the title and on the message text.  These run
before the escape sanitizer, so they see the trimmed, unescaped values. -/
def messageErrors (b : MessageBody) : List FieldError :=
  (if b.title.length ≥ 1 then [] else [⟨"title", "Invalid title"⟩])
  ++ (if b.message.length ≥ 1 then [] else [⟨"message", "Invalid message"⟩])

/-- The escape sanitizer applied to every field of the (already trimmed)
body; this is the req.body the final handler sees. -/
def messageEscape (b : MessageBody) : MessageBody :=
  { title := htmlEscape b.title, message := htmlEscape b.message }

/-- The message body as the `message:` form echo handed to the view. -/
def messageBodyEcho (b : MessageBody) : List (String × String) :=
  [("title", b.title), ("message", b.message)]

/-- The message_create_post handler.  `session` is the session identity
(req.user), carried as the user id.  Mirrors the source exactly, including
the missing `return`: when req.user is absent the redirect to /login is
emitted but execution falls through to the validation check; on validation
errors the form is re-rendered; otherwise the handler builds the message
from req.user.id — which, with no session user, throws a TypeError (reading
a property of undefined) before anything is saved — and on success saves it
and redirects home. -/
def message_create_post (session : Option Nat) (b0 : MessageBody) (st : AppState) :
    AppState × List Effect :=
  let bTrim := messageSanitize b0
  let b := messageEscape bTrim
  let errors := messageErrors bTrim
  let pre : List Effect := if session.isNone then [.redirect "/login"] else []
  if errors.isEmpty then
    match session with
    | none =>
        (st, pre ++ [.typeError "Cannot read properties of undefined (reading id)"])
    | some uid =>
        ({ users := st.users,
           messages := st.messages
             ++ [{ id := st.nextId, user := uid, title := b.title, text := b.message }],
           nextId := st.nextId + 1 },
         pre ++ [.redirect "/"])
  else
    (st, pre ++ [.render "message_form" (messageBodyEcho b) errors])

/-- The membership_post handler.  `secret` models the MEMBER_SECRET
environment value; `session` is req.user (carried as the user id).  Mirrors
the source: the single validation chain trims the submitted password and the
custom check compares it to the secret; on mismatch the form is re-rendered
with the error array; on match the handler calls User.findById(req.user) —
with no session user mongoose resolves findById(undefined) to a lookup for a
null id and finds nothing — raising the 404 "User not found" error when no
record is found, and otherwise setting membership_status to true, saving,
and redirecting home. -/
def membership_post (secret : String) (session : Option Nat) (password : String)
    (st : AppState) : AppState × List Effect :=
  let p := jsTrim password
  if p = secret then
    let found : Option UserRec := match session with
      | none => none
      | some uid => st.users.find? (fun u => u.id = uid)
    match session, found with
    | some uid, some _ =>
        ({ users := st.users.map (fun u =>
             if u.id = uid then
               { id := u.id, first_name := u.first_name, last_name := u.last_name,
                 username := u.username, password := u.password,
                 membership_status := true }
             else u),
           messages := st.messages, nextId := st.nextId },
         [.redirect "/"])
    | _, _ =>
        (st, [.nextError (some 404) "User not found"])
  else
    (st, [.render "membership_form" []
            [⟨"password", "Sorry, password is incorrect."⟩]])

/-- The message_delete_get handler (delete-confirmation page).  Requires a
session identity (else redirect to /login, with return); looks the message
up by id; raises the 404 "Message not found" error when absent; otherwise
renders the confirmation view with the message. -/
def message_delete_get (session : Option Nat) (msgId : Nat) (st : AppState) :
    AppState × List Effect :=
  if session.isNone then
    (st, [.redirect "/login"])
  else
    match st.messages.find? (fun m => m.id = msgId) with
    | none => (st, [.nextError (some 404) "Message not found"])
    | some m =>
        (st, [.render "message_delete" [("title", m.title), ("text", m.text)] []])

/-- The message_delete_post handler.  Requires a session identity (else
redirect to /login, with return); then calls
Message.findByIdAndRemove(req.body.message): the document with that id is
removed when present, and a missing id is not an error (mongoose yields a
null document with no err), so either way the handler redirects home. -/
def message_delete_post (session : Option Nat) (msgId : Nat) (st : AppState) :
    AppState × List Effect :=
  if session.isNone then
    (st, [.redirect "/login"])
  else
    ({ users := st.users,
       messages := st.messages.filter (fun m => m.id ≠ msgId),
       nextId := st.nextId },
     [.redirect "/"])

/-! ### Concrete fixtures used by witnesses and counterexamples -/

/-- A concrete hash function standing in for bcrypt.hash in witnesses. -/
def hashW (p : String) : String := "#" ++ p

/-- A concrete one-user, one-message store used by witnesses. -/
def stOne : AppState :=
  { users := [{ id := 1, first_name := "Ann", last_name := "Lee", username := "ann",
                password := "#hash", membership_status := false }],
    messages := [{ id := 5, user := 1, title := "hi", text := "there" }],
    nextId := 9 }

/-! ### Claims -/

/-- C1: an unauthenticated POST to the message-creation handler gets the
redirect to /login, but the handler does not halt: the state is untouched
and, after the redirect, execution continues to validation — re-rendering
the form when the fields are invalid, and otherwise proceeding into the
creation branch, where building the message from the absent req.user throws
(so the attempt aborts on the TypeError). -/
theorem message_create_post_unauth_proceeds (b : MessageBody) (st : AppState) :
    (message_create_post none b st).1 = st
    ∧ (message_create_post none b st).2
      = Effect.redirect "/login"
        :: (if (messageErrors (messageSanitize b)).isEmpty then
              [Effect.typeError "Cannot read properties of undefined (reading id)"]
            else
              [Effect.render "message_form"
                (messageBodyEcho (messageEscape (messageSanitize b)))
                (messageErrors (messageSanitize b))]) := by
  cases h : (messageErrors (messageSanitize b)).isEmpty <;>
    simp [message_create_post, h]

/-- C2: a signup submission that passes field validation, whose username is
not in the store, appends exactly one user, with membership_status false and
the password stored as the hash of the submitted (trimmed) password — never
the raw password, given that the hash function is not the identity — and the
response is the single redirect to /login.  The message store is untouched. -/
theorem signup_post_success (hashFn : String → String) (b : SignupBody) (st : AppState)
    (hOneWay : ∀ p, hashFn p ≠ p)
    (hValid : (signupErrors (signupSanitize b)).isEmpty = true)
    (hNew : st.users.find? (fun u => u.username = (signupSanitize b).username) = none) :
    (signup_post hashFn b st).1.users
      = st.users
        ++ [{ id := st.nextId, first_name := (signupSanitize b).firstname,
              last_name := (signupSanitize b).lastname,
              username := (signupSanitize b).username,
              password := hashFn (signupSanitize b).password,
              membership_status := false }]
    ∧ (signup_post hashFn b st).1.messages = st.messages
    ∧ hashFn (signupSanitize b).password ≠ (signupSanitize b).password
    ∧ (signup_post hashFn b st).2 = [Effect.redirect "/login"] := by
  refine ⟨?_, ?_, hOneWay _, ?_⟩ <;> simp [signup_post, hValid, hNew]

/-- C2 witness: a concrete valid signup on the empty store. -/
theorem signup_post_success_witness :
    (signupErrors (signupSanitize ⟨"Jo", "Doe", "jodoe", "secret1", "secret1"⟩)).isEmpty = true
    ∧ (signup_post hashW ⟨"Jo", "Doe", "jodoe", "secret1", "secret1"⟩
        { users := [], messages := [], nextId := 0 }).1.users
      = [{ id := 0, first_name := "Jo", last_name := "Doe", username := "jodoe",
           password := "#secret1", membership_status := false }] := by
  have h := signup_post_success hashW ⟨"Jo", "Doe", "jodoe", "secret1", "secret1"⟩
    { users := [], messages := [], nextId := 0 }
    (fun p hp => by
      have h2 := congrArg String.length hp
      rw [hashW, String.length_append] at h2
      have h3 : ("#" : String).length = 1 := rfl
      rw [h3] at h2
      omega)
    (by decide) rfl
  exact ⟨by decide, h.1.trans (by decide)⟩

/-- C3: a signup submission passing field validation whose username is
already in the user store leaves the whole state unchanged and re-renders
the form with the single error tagged to the username field with the message
"Username already in use.". -/
theorem signup_post_duplicate_username (hashFn : String → String) (b : SignupBody)
    (st : AppState) (u : UserRec)
    (hValid : (signupErrors (signupSanitize b)).isEmpty = true)
    (hFound : st.users.find? (fun v => v.username = (signupSanitize b).username) = some u) :
    (signup_post hashFn b st).1 = st
    ∧ (signup_post hashFn b st).2
      = [Effect.render "signup_form" (signupBodyEcho (signupSanitize b))
           [⟨"username", "Username already in use."⟩]] := by
  constructor <;> simp [signup_post, hValid, hFound]

/-- C3 witness: signing up again with the username already in stOne. -/
theorem signup_post_duplicate_username_witness :
    (signupErrors (signupSanitize ⟨"Ann", "Lee", "ann", "secret1", "secret1"⟩)).isEmpty = true
    ∧ stOne.users.find?
        (fun v => v.username = (signupSanitize ⟨"Ann", "Lee", "ann", "secret1", "secret1"⟩).username)
      = some { id := 1, first_name := "Ann", last_name := "Lee", username := "ann",
               password := "#hash", membership_status := false }
    ∧ (signup_post hashW ⟨"Ann", "Lee", "ann", "secret1", "secret1"⟩ stOne).1 = stOne := by
  refine ⟨by decide, by decide, ?_⟩
  exact (signup_post_duplicate_username hashW ⟨"Ann", "Lee", "ann", "secret1", "secret1"⟩
    stOne { id := 1, first_name := "Ann", last_name := "Lee", username := "ann",
            password := "#hash", membership_status := false }
    (by decide) (by decide)).1

/-- C4: a signup submission failing field validation writes nothing to the
store (the state — users and messages alike — is returned unchanged), the
form is re-rendered with the sanitized submitted values and the field
errors, and repeating the same still-invalid submission any number of times
never changes the store. -/
theorem signup_post_invalid_no_write (hashFn : String → String) (b : SignupBody)
    (st : AppState)
    (hInvalid : (signupErrors (signupSanitize b)).isEmpty = false) :
    (signup_post hashFn b st).1 = st
    ∧ (signup_post hashFn b st).2
      = [Effect.render "signup_form" (signupBodyEcho (signupSanitize b))
           (signupErrors (signupSanitize b))]
    ∧ ∀ n : Nat, (fun s => (signup_post hashFn b s).1)^[n] st = st := by
  have hstep : ∀ s : AppState, (signup_post hashFn b s).1 = s := fun s => by
    simp [signup_post, hInvalid]
  refine ⟨hstep st, by simp [signup_post, hInvalid], ?_⟩
  intro n
  induction n with
  | zero => rfl
  | succ n ih => rw [Function.iterate_succ_apply, hstep, ih]

/-- C4 witness: a signup with a digit in the first name, repeated, never
writes to stOne. -/
theorem signup_post_invalid_no_write_witness :
    (signupErrors (signupSanitize ⟨"Jo1n", "Doe", "jodoe", "secret1", "secret1"⟩)).isEmpty = false
    ∧ (signup_post hashW ⟨"Jo1n", "Doe", "jodoe", "secret1", "secret1"⟩ stOne).1 = stOne
    ∧ (fun s => (signup_post hashW ⟨"Jo1n", "Doe", "jodoe", "secret1", "secret1"⟩ s).1)^[3] stOne
      = stOne := by
  have h := signup_post_invalid_no_write hashW
    ⟨"Jo1n", "Doe", "jodoe", "secret1", "secret1"⟩ stOne (by decide)
  exact ⟨by decide, h.1, h.2.2 3⟩

/-- C5: a message-creation submission by an authenticated caller whose title
or message text is empty after trimming creates no message (the state is
unchanged), and the form is re-rendered with the escaped submitted data and
a nonempty field-error list. -/
theorem message_create_post_empty_field (uid : Nat) (b : MessageBody) (st : AppState)
    (hEmpty : (messageSanitize b).title = "" ∨ (messageSanitize b).message = "") :
    (message_create_post (some uid) b st).1 = st
    ∧ (message_create_post (some uid) b st).2
      = [Effect.render "message_form" (messageBodyEcho (messageEscape (messageSanitize b)))
           (messageErrors (messageSanitize b))]
    ∧ messageErrors (messageSanitize b) ≠ [] := by
  have hne : (messageErrors (messageSanitize b)).isEmpty = false := by
    rcases hEmpty with h | h <;> simp [messageErrors, h]
  refine ⟨?_, ?_, ?_⟩
  · simp [message_create_post, hne]
  · simp [message_create_post, hne]
  · intro hcontra
    rw [hcontra] at hne
    simp at hne

/-- C5 witness: an authenticated submission whose title trims to empty. -/
theorem message_create_post_empty_field_witness :
    (messageSanitize (⟨"  ", "hello"⟩ : MessageBody)).title = ""
    ∧ (message_create_post (some 1) ⟨"  ", "hello"⟩ stOne).1 = stOne
    ∧ messageErrors (messageSanitize ⟨"  ", "hello"⟩) ≠ [] := by
  have h := message_create_post_empty_field 1 ⟨"  ", "hello"⟩ stOne (Or.inl (by decide))
  exact ⟨by decide, h.1, h.2.2⟩

/-- Helper: on a correct secret with a session identity whose record is
found, membership_post rewrites the user collection with the pointwise
membership update and emits the single redirect home. -/
theorem membership_post_found_eq (secret pw : String) (uid : Nat) (st : AppState)
    (u : UserRec) (hPw : jsTrim pw = secret)
    (hu : st.users.find? (fun v => v.id = uid) = some u) :
    membership_post secret (some uid) pw st
      = ({ users := st.users.map (fun v =>
             if v.id = uid then
               { id := v.id, first_name := v.first_name, last_name := v.last_name,
                 username := v.username, password := v.password,
                 membership_status := true }
             else v),
           messages := st.messages, nextId := st.nextId },
         [Effect.redirect "/"]) := by
  simp [membership_post, hPw, hu]

/-- C6: a membership-unlock submission whose trimmed password equals the
configured secret, with a session identity: when the session user's record
is not in the store the handler raises the 404 "User not found" error with
the state unchanged; when it is found, that user's membership_status is set
to true and persisted (every stored record with the session id has the flag
true afterwards) and the single response is the redirect home. -/
theorem membership_post_correct_secret (secret pw : String) (uid : Nat) (st : AppState)
    (hPw : jsTrim pw = secret) :
    ((st.users.find? (fun v => v.id = uid)).isSome = false →
       membership_post secret (some uid) pw st
         = (st, [Effect.nextError (some 404) "User not found"]))
    ∧ ((st.users.find? (fun v => v.id = uid)).isSome = true →
       (membership_post secret (some uid) pw st).2 = [Effect.redirect "/"]
       ∧ ∀ v ∈ (membership_post secret (some uid) pw st).1.users,
           v.id = uid → v.membership_status = true) := by
  constructor
  · intro hNone
    cases hfind : st.users.find? (fun v => v.id = uid) with
    | none => simp [membership_post, hPw, hfind]
    | some u => rw [hfind] at hNone; simp at hNone
  · intro hSome
    obtain ⟨u, hu⟩ := Option.isSome_iff_exists.mp hSome
    have heq := membership_post_found_eq secret pw uid st u hPw hu
    refine ⟨by rw [heq], ?_⟩
    intro v hv hvid
    rw [heq] at hv
    obtain ⟨w, _, hw⟩ := List.mem_map.mp hv
    by_cases hcase : w.id = uid
    · rw [if_pos hcase] at hw
      rw [← hw]
    · rw [if_neg hcase] at hw
      rw [← hw] at hvid
      exact absurd hvid hcase

/-- C6 witness: unlocking with the correct secret for user 1 of stOne. -/
theorem membership_post_correct_secret_witness :
    jsTrim " s3cret " = "s3cret"
    ∧ (stOne.users.find? (fun v => v.id = 1)).isSome = true
    ∧ (membership_post "s3cret" (some 1) " s3cret " stOne).2 = [Effect.redirect "/"] := by
  refine ⟨by decide, by decide, ?_⟩
  exact ((membership_post_correct_secret "s3cret" " s3cret " 1 stOne (by decide)).2
    (by decide)).1

/-- C7: a membership-unlock submission whose trimmed password differs from
the configured secret re-renders the membership form with the single
incorrect-password error and leaves the whole state — in particular every
user record and its membership_status — unchanged, whatever the session. -/
theorem membership_post_wrong_secret (secret pw : String) (session : Option Nat)
    (st : AppState) (hPw : jsTrim pw ≠ secret) :
    (membership_post secret session pw st).1 = st
    ∧ (membership_post secret session pw st).2
      = [Effect.render "membership_form" []
           [⟨"password", "Sorry, password is incorrect."⟩]] := by
  constructor <;> simp [membership_post, hPw]

/-- C7 witness: a wrong secret against stOne leaves the store unchanged. -/
theorem membership_post_wrong_secret_witness :
    jsTrim "wrong" ≠ "s3cret"
    ∧ (membership_post "s3cret" (some 1) "wrong" stOne).1 = stOne := by
  exact ⟨by decide,
    (membership_post_wrong_secret "s3cret" "wrong" (some 1) stOne (by decide)).1⟩

/-- C9: an unauthenticated POST to the membership-unlock handler is never
redirected to login; with the correct (trimmed) secret it proceeds to the
user lookup for the absent session identity, finds nothing, and raises the
404 "User not found" error; with a wrong secret it re-renders the form.  The
state is unchanged either way. -/
theorem membership_post_unauthenticated (secret pw : String) (st : AppState) :
    Effect.redirect "/login" ∉ (membership_post secret none pw st).2
    ∧ membership_post secret none pw st
      = (st, if jsTrim pw = secret then
               [Effect.nextError (some 404) "User not found"]
             else
               [Effect.render "membership_form" []
                  [⟨"password", "Sorry, password is incorrect."⟩]]) := by
  by_cases h : jsTrim pw = secret <;> simp [membership_post, h]

/-- C10: a successful membership unlock rewrites the user collection by
flipping membership_status to true on exactly the records carrying the
session id, copying every other field of those records verbatim and leaving
every other user record, the whole message store and the id source
untouched. -/
theorem membership_post_unlock_frame (secret pw : String) (uid : Nat) (st : AppState)
    (hPw : jsTrim pw = secret)
    (hFound : (st.users.find? (fun v => v.id = uid)).isSome = true) :
    (membership_post secret (some uid) pw st).1.messages = st.messages
    ∧ (membership_post secret (some uid) pw st).1.nextId = st.nextId
    ∧ (membership_post secret (some uid) pw st).1.users
      = st.users.map (fun v =>
          if v.id = uid then
            { id := v.id, first_name := v.first_name, last_name := v.last_name,
              username := v.username, password := v.password,
              membership_status := true }
          else v)
    ∧ ∀ v ∈ st.users, v.id ≠ uid → v ∈ (membership_post secret (some uid) pw st).1.users := by
  obtain ⟨u, hu⟩ := Option.isSome_iff_exists.mp hFound
  have heq := membership_post_found_eq secret pw uid st u hPw hu
  refine ⟨by rw [heq], by rw [heq], by rw [heq], ?_⟩
  intro v hv hvid
  rw [heq]
  exact List.mem_map.mpr ⟨v, hv, by rw [if_neg hvid]⟩

/-- C10 witness: unlocking user 1 of stOne touches only its membership
flag and leaves the message store alone. -/
theorem membership_post_unlock_frame_witness :
    jsTrim "s3cret" = "s3cret"
    ∧ (stOne.users.find? (fun v => v.id = 1)).isSome = true
    ∧ (membership_post "s3cret" (some 1) "s3cret" stOne).1.messages = stOne.messages := by
  refine ⟨by decide, by decide, ?_⟩
  exact (membership_post_unlock_frame "s3cret" "s3cret" 1 stOne (by decide) (by decide)).1

/-- C8 counterexample: an authenticated delete POST naming id 7, which does
not exist in stOne (its only message has id 5), surfaces no not-found error:
findByIdAndRemove treats the missing id as a silent no-op, so the handler
just redirects home with the store unchanged. -/
theorem message_delete_post_missing_id_no_error :
    stOne.messages.find? (fun m => m.id = 7) = none
    ∧ (message_delete_post (some 1) 7 stOne).2 = [Effect.redirect "/"]
    ∧ Effect.nextError (some 404) "Message not found"
        ∉ (message_delete_post (some 1) 7 stOne).2
    ∧ (message_delete_post (some 1) 7 stOne).1 = stOne := by
  refine ⟨by decide, by decide, by decide, by decide⟩

/-- C8 amended: for an authenticated request, the not-found error for a
missing message id is surfaced by the delete-confirmation GET handler; the
delete POST handler treats a missing id as a silent no-op (state unchanged,
redirect home), and for an existing id removes exactly the messages with
that id and redirects home. -/
theorem message_delete_behaviour (uid mid : Nat) (st : AppState) :
    (st.messages.find? (fun m => m.id = mid) = none →
       message_delete_get (some uid) mid st
         = (st, [Effect.nextError (some 404) "Message not found"])
       ∧ message_delete_post (some uid) mid st = (st, [Effect.redirect "/"]))
    ∧ (∀ m, st.messages.find? (fun x => x.id = mid) = some m →
       (message_delete_post (some uid) mid st).2 = [Effect.redirect "/"]
       ∧ (message_delete_post (some uid) mid st).1.messages
         = st.messages.filter (fun x => x.id ≠ mid)
       ∧ m ∉ (message_delete_post (some uid) mid st).1.messages) := by
  have hpost : message_delete_post (some uid) mid st
      = ({ users := st.users, messages := st.messages.filter (fun x => x.id ≠ mid),
           nextId := st.nextId }, [Effect.redirect "/"]) := rfl
  constructor
  · intro hNone
    have hall := List.find?_eq_none.mp hNone
    refine ⟨by simp [message_delete_get, hNone], ?_⟩
    have hfilter : st.messages.filter (fun x => x.id ≠ mid) = st.messages := by
      rw [List.filter_eq_self]
      intro m hm
      have := hall m hm
      simpa using this
    rw [hpost, hfilter]
  · intro m hm
    have hmid : m.id = mid := by simpa using List.find?_some hm
    refine ⟨by rw [hpost], by rw [hpost], ?_⟩
    intro hmem
    rw [hpost] at hmem
    have := List.of_mem_filter hmem
    simp [hmid] at this

/-- C8 amended witness: against stOne (one message, id 5), the GET for the
missing id 7 raises the 404 and the POST for the existing id 5 removes it. -/
theorem message_delete_behaviour_witness :
    stOne.messages.find? (fun m => m.id = 7) = none
    ∧ stOne.messages.find? (fun x => x.id = 5)
      = some { id := 5, user := 1, title := "hi", text := "there" }
    ∧ message_delete_get (some 1) 7 stOne
      = (stOne, [Effect.nextError (some 404) "Message not found"])
    ∧ ({ id := 5, user := 1, title := "hi", text := "there" } : MessageRec)
        ∉ (message_delete_post (some 1) 5 stOne).1.messages := by
  refine ⟨by decide, by decide,
    ((message_delete_behaviour 1 7 stOne).1 (by decide)).1,
    ((message_delete_behaviour 1 5 stOne).2
      { id := 5, user := 1, title := "hi", text := "there" } (by decide)).2.2⟩

end MembersOnly
